import Mathlib

/-!
Verification of the model-loading orchestration fragment of KoboldAI-united
(`modeling/inference_models/generic_hf_torch.py` and
`modeling/inference_models/hf_mtj.py`), as a shallow embedding in Lean 4.

Pure decision logic of the Python source is translated into executable Lean
definitions; external collaborators (the download manager, the Lua bridge,
the TPU backend) appear as parameters.  Python exceptions are modelled with
`Except`; Python local/global variables that may be unbound are modelled as
`Option` values.
-/

namespace KoboldLoad

/-! ### Python error values -/

inductive PyError where
  | assertionError
  | nameError (var : String)
  | unboundLocalError (var : String)
  | indexError
deriving DecidableEq, Repr

/-! ### C8: the `_rebuild_tensor` dtype probe (`generic_hf_torch.py` 100-121)

`new_rebuild_tensor` wraps `torch._utils._rebuild_tensor`.  The `storage`
argument is either a plain `torch.Storage` (whose `.dtype` attribute is read
directly) or a `torch_lazy_loader.LazyTensor` whose `storage_type` either
already carries a `torch.dtype` or must be instantiated (`storage_type(0)`)
to read one.  The probe sets the process-wide `fp32_model` flag when the
declared dtype is float32 and the tensor has 2 or more dimensions, then
delegates to the original rebuild operation unchanged. -/

inductive TorchDType where
  | float32
  | float16
  | float64
  | int64
  | uint8
deriving DecidableEq, Repr

inductive RebuildStorage where
  /-- an ordinary `torch.Storage`, carrying its `.dtype` -/
  | plain (dtype : TorchDType)
  /-- a `LazyTensor`: `storage_type.dtype` when that attribute is already a
  `torch.dtype`, otherwise the dtype of a fresh zero-size instance -/
  | lazy (storage_type_dtype : Option TorchDType) (instance_dtype : TorchDType)
deriving DecidableEq, Repr

def rebuildStorageDtype : RebuildStorage → TorchDType
  | RebuildStorage.plain d => d
  | RebuildStorage.lazy (some d) _ => d
  | RebuildStorage.lazy none d => d

/-- The patched rebuild operation.  `old_rebuild_tensor` is the saved original
`torch._utils._rebuild_tensor`; the first component of the result is the new
value of the process-wide `fp32_model` flag, the second is exactly what the
original operation returns. -/
def new_rebuild_tensor {α : Type}
    (old_rebuild_tensor : RebuildStorage → Int → List Nat → List Nat → α)
    (fp32_model : Bool) (storage : RebuildStorage) (storage_offset : Int)
    (shape stride : List Nat) : Bool × α :=
  let dtype := rebuildStorageDtype storage
  let fp32_model :=
    if dtype = TorchDType.float32 ∧ 2 ≤ shape.length then true else fp32_model
  (fp32_model, old_rebuild_tensor storage storage_offset shape stride)

/-! ### C7: the TPU settings callback (`hf_mtj.py` 130-147)

Only the `"sampler_order"` entry of the returned settings dictionary is in
question; the other entries are scalar copies of configuration values.  The
source computes a local `sampler_order` with a repetition-penalty stage `6`
prepended when fewer than 7 stages are configured, but the returned
dictionary reads `utils.koboldai_vars.sampler_order` — the unmodified
configuration value — so the prepend is a dead store. -/

def mtj_settings_sampler_order (cfg_sampler_order : List Nat) : List Nat :=
  let sampler_order := cfg_sampler_order
  let sampler_order :=
    if sampler_order.length < 7 then 6 :: sampler_order else sampler_order
  cfg_sampler_order

/-- What the source's own comment ("Add repetition penalty at beginning if
it's not present") and the spec describe: the prepended order is returned. -/
def intendedSamplerOrder (cfg_sampler_order : List Nat) : List Nat :=
  if cfg_sampler_order.length < 7 then 6 :: cfg_sampler_order
  else cfg_sampler_order

/-! ### C9: saving the weights of a downloaded unsharded model
(`generic_hf_torch.py` 163-190)

For an unsharded model the loop attempts, in order, the canonical name
`transformers.modeling_utils.WEIGHTS_NAME` (`"pytorch_model.bin"`) and then
`"model.safetensors"`, fetching each from the download cache and moving it
into the local model path.  An exception during an attempt is swallowed
unless the failing name is `"model.safetensors"`, in which case it is
re-raised.  `fetchMoveOk name` abstracts whether the fetch-and-move of
`name` succeeds; the `Except.ok` payload lists the names moved. -/

def WEIGHTS_NAME : String := "pytorch_model.bin"

def weightNameCandidates : List String := [WEIGHTS_NAME, "model.safetensors"]

def trySaveWeights (fetchMoveOk : String → Bool) :
    List String → Except String (List String)
  | [] => Except.ok []
  | n :: rest =>
    if fetchMoveOk n then
      match trySaveWeights fetchMoveOk rest with
      | Except.ok moved => Except.ok (n :: moved)
      | Except.error e => Except.error e
    else if n = "model.safetensors" then Except.error n
    else trySaveWeights fetchMoveOk rest

def saveUnshardedWeights (fetchMoveOk : String → Bool) :
    Except String (List String) :=
  trySaveWeights fetchMoveOk weightNameCandidates

/-! ### The unbound Python local `model` in `_load` (`generic_hf_torch.py`)

Inside `GenericHFTorchInferenceModel._load` the name `model` is assigned only
by the statement `model = model.half()` on line 132; because of that
assignment, Python compiles `model` as a *local* of `_load`, so every read of
`model` anywhere in the function (including the right-hand side of line 132
itself and `model.config` on line 247) happens before any assignment has
completed and raises `UnboundLocalError`.  (The materialized model is stored
in the attribute `self.model`, assigned on lines 94/119; before the file was
refactored out of `aiserver.py`, `model` was a module global.)  We model the
local's value at each read site: -/

def modelLocalVar : Option Unit := none

/-! ### C2: saving a freshly downloaded model (`generic_hf_torch.py` 123-161)

When the model was downloaded (no local copy) and `save_model` is set, the
tokenizer is saved and then either (a) `fp32_model` is set and no disk-cache
blocks are allocated: the model is converted to fp16 and re-serialized with
`save_pretrained`, or (b) otherwise: the downloaded `config.json` and weight
files are moved verbatim into the local model path. -/

inductive WeightSaveAction where
  /-- `model = model.half()` followed by `model.save_pretrained(...)` -/
  | halfReserialize
  /-- move the downloaded config and weight files verbatim -/
  | copyVerbatim
  /-- `save_model` was false: nothing is saved -/
  | skipped
deriving DecidableEq, Repr

/-- The post-download save step of `_load`.  `modelVar` is the value of the
Python local `model` at the read in `model = model.half()`. -/
def downloadedSaveStep (modelVar : Option Unit)
    (save_model fp32_model : Bool) (disk_blocks : Nat) :
    Except PyError WeightSaveAction :=
  if save_model then
    if fp32_model ∧ disk_blocks = 0 then
      match modelVar with
      | none => Except.error (PyError.unboundLocalError "model")
      | some _ => Except.ok WeightSaveAction.halfReserialize
    else Except.ok WeightSaveAction.copyVerbatim
  else Except.ok WeightSaveAction.skipped

/-! ### C1: the final device-placement pass (`generic_hf_torch.py` 240-260)

The nested branch at the end of `_load`, including the duplicated
disk-offload arm of the source.  In the break-model arm with lazy loading
off, the source calls `self.breakmodel_device_config(model.config)`, reading
the unbound local `model` (see above). -/

inductive PlacementAction where
  /-- `self.model = self.model.half().to(gpu_device)` -/
  | accelAll
  /-- break-model block-by-block placement via `self._move_to_devices()`;
  `planComputedNow` records whether `breakmodel_device_config` ran here
  (it does exactly when lazy loading was off) -/
  | splitMove (planComputedNow : Bool)
  /-- disk cache streaming via `self._move_to_devices()` -/
  | diskStream
  /-- `self.model = self.model.to("cpu").float()` -/
  | cpuFloat
deriving DecidableEq, Repr

def finalDevicePlacement (modelVar : Option Unit)
    (hascuda usegpu breakmodel lazy_load : Bool) (disk_blocks : Nat) :
    Except PyError PlacementAction :=
  if hascuda then
    if usegpu then
      Except.ok PlacementAction.accelAll
    else if breakmodel then
      if !lazy_load then
        match modelVar with
        | none => Except.error (PyError.unboundLocalError "model")
        | some _ => Except.ok (PlacementAction.splitMove true)
      else Except.ok (PlacementAction.splitMove false)
    else if disk_blocks > 0 then Except.ok PlacementAction.diskStream
    else if disk_blocks > 0 then Except.ok PlacementAction.diskStream
    else Except.ok PlacementAction.cpuFloat
  else if disk_blocks > 0 then Except.ok PlacementAction.diskStream
  else Except.ok PlacementAction.cpuFloat

/-- The four-way priority ladder exactly as the claim states it: VRAM-only
on an accelerator first, then split placement (the break-model scheme, which
per spec §4.2 presupposes the accelerator), then disk streaming, then CPU at
float32.  In the split arm the plan is computed on the spot exactly when
lazy loading was off. -/
def claimedPlacementLadder (hascuda usegpu breakmodel lazy_load : Bool)
    (disk_blocks : Nat) : PlacementAction :=
  if hascuda ∧ usegpu then PlacementAction.accelAll
  else if hascuda ∧ breakmodel then PlacementAction.splitMove (!lazy_load)
  else if disk_blocks > 0 then PlacementAction.diskStream
  else PlacementAction.cpuFloat

/-! ### C3: bad-words derivation (`generic_hf_torch.py` 227-236 and
`hf_mtj.py` 200-209; the two occurrences are textually identical)

When the suppression list is still the default object and the model type is
not `gpt2`/`gpt_neo`/`gptj`, it is replaced by singleton groups `[v]` for
every vocabulary entry `(k, v)` whose key contains one of `<`, `>`, `[`, `]`
and that passes the newline-mode guard
`newlinemode != "s" or str(k) != "</s>"`. -/

def hasBracketChar (k : String) : Bool :=
  "<>[]".toList.any (fun c => k.toList.contains c)

def deriveBadwordsIds (vocab : List (String × Nat)) (newlinemode : String) :
    List (List Nat) :=
  (vocab.filter (fun kv =>
      hasBracketChar kv.1 &&
        (decide (newlinemode ≠ "s") || decide (kv.1 ≠ "</s>")))).map
    (fun kv => [kv.2])

/-- The whole guarded update: `isDefault` is the identity test
`badwordsids is koboldai_settings.badwordsids_default`. -/
def badwordsUpdate (isDefault : Bool) (model_type : String)
    (current : List (List Nat)) (vocab : List (String × Nat))
    (newlinemode : String) : List (List Nat) :=
  if isDefault ∧ model_type ∉ ["gpt2", "gpt_neo", "gptj"] then
    deriveBadwordsIds vocab newlinemode
  else current

/-- The vocabulary of the claim's concrete test. -/
def exampleVocab : List (String × Nat) := [("<pad>", 0), ("hello", 1), ("</s>", 2)]

/-! ### The TPU backend parameter dictionary (`tpu_mtj_backend.params`)

Only the entries read by `hf_mtj.py` are modelled.  `d_embed` is optional:
the source reads `params.get("d_embed", params["d_model"])`. -/

structure MTJParams where
  d_model : Nat
  d_embed : Option Nat
  seq : Nat
  cores_per_replica : Nat
  n_vocab : Nat
  n_vocab_padding : Nat
deriving DecidableEq, Repr

def embedWidth (p : MTJParams) : Nat := p.d_embed.getD p.d_model

/-! ### C6: the zero soft-prompt placeholder (`hf_mtj.py` 211-241)

With no soft prompt configured, `get_soft_tokens` builds a `(1, embedWidth)`
zero tensor, pads its first dimension by
`seq - (seq % -cores_per_replica) - rows` further rows (Python `%`, i.e.
floor-mod, is `Int.fmod`), and reshapes the result to
`(cores_per_replica, -1, embedWidth)`. -/

/-- `tensor.shape[0]` of the zero placeholder `np.zeros((1, width))`. -/
def placeholderRows : Nat := 1

/-- `padding_amount` exactly as computed by the source. -/
def paddingAmount (p : MTJParams) : Int :=
  (p.seq : Int) - Int.fmod (p.seq : Int) (-(p.cores_per_replica : Int)) -
    (placeholderRows : Int)

/-- The first dimension of the padded placeholder
(`np.pad(tensor, ((0, padding_amount), (0, 0)))`). -/
def paddedFirstDim (p : MTJParams) : Int :=
  (placeholderRows : Int) + paddingAmount p

/-- The shape produced by
`tensor.reshape(cores_per_replica, -1, embedWidth)`: numpy computes the `-1`
dimension as the total row count divided by `cores_per_replica`. -/
def reshapedShape (p : MTJParams) : Int × Int × Int :=
  ((p.cores_per_replica : Int),
    paddedFirstDim p / (p.cores_per_replica : Int),
    (embedWidth p : Int))

/-! ### C10: the synthesized soft-token ids (`hf_mtj.py` 243-251)

`np.arange(n_vocab + n_vocab_padding, n_vocab + n_vocab_padding + sp_length,
dtype=np.uint32)`; uint32 arithmetic wraps modulo `2 ^ 32`. -/

def UINT32_MOD : Nat := 2 ^ 32

def npArangeUint32 (start len : Nat) : List Nat :=
  (List.range len).map (fun i => (start + i) % UINT32_MOD)

def softTokensStart (p : MTJParams) : Nat := p.n_vocab + p.n_vocab_padding

def get_soft_tokens_ids (p : MTJParams) (sp_length : Nat) : List Nat :=
  npArangeUint32 (softTokensStart p) sp_length

/-! ### C5: the score-rewriting hook `mtj_warper_callback` (`hf_mtj.py` 44-67)

The hook records `scores.shape`, round-trips the scores through a Lua table
(row by row), lets the external script `execute_genmod` rewrite them, reads
them back with `np.array(..., dtype=scores.dtype)`, and asserts the new
shape equals the recorded one.  The external rewrite is abstracted as a
function `genmod` on the row list; the reconstructed array's dtype is the
input's by construction of the `np.array` call. -/

inductive NpDType where
  | float32
  | float16
  | uint32
deriving DecidableEq, Repr

structure NpArray2 (α : Type) where
  dtype : NpDType
  rows : List (List α)
deriving DecidableEq, Repr

/-- The per-row length profile of a nested row list; two arrays built from
row lists have equal numpy shapes exactly when their profiles agree (a
ragged profile never equals a rectangular one, matching the `assert`
failing on any ragged or resized rewrite). -/
def shapeProfile {α : Type} (rows : List (List α)) : List Nat :=
  rows.map List.length

def mtj_warper_callback {α : Type}
    (genmod : List (List α) → List (List α)) (scores : NpArray2 α) :
    Except PyError (NpArray2 α) :=
  if shapeProfile (genmod scores.rows) = shapeProfile scores.rows then
    Except.ok ⟨scores.dtype, genmod scores.rows⟩
  else Except.error PyError.assertionError

/-! ### C4: the stopping-decision hook `mtj_stopping_callback`
(`hf_mtj.py` 69-120)

State read and written through `utils.koboldai_vars` and the Lua bridge is
gathered in `StopVars`.  The hook increments `generated_tkns`, asserts that
the exclusion-set list matches the batch, computes the halt flag, clears the
bridge's regeneration flag, copies the newest token of each of the first
`numseqs` rows into the bridge (modelled only by its `IndexError` bound
check; rows are total functions so column reads cannot fail), and — unless
halting or dynamic world-info scanning is off — decodes the generated text,
which begins by reading the module global `past`.  `global past` is declared
but never assigned anywhere in the module, so that read raises `NameError`;
`pastGlobal` is its value.  The world-info rescan itself
(`calc_ai_text` minus the exclusion set) is external and abstracted by
`foundNewWorldInfo i` for row `i`; the loop breaks at the first hit, so the
resulting regeneration flag is the disjunction over all rows. -/

def pastGlobal : Option (List (List Nat)) := none

structure StopVars where
  generated_tkns : Nat
  genamt : Nat
  abort : Bool
  lua_generating : Bool
  lua_regeneration_required : Bool
  dynamicscan : Bool
  numseqs : Nat
deriving DecidableEq, Repr

structure StopDecision (α : Type) where
  excluded_world_info : List α
  regeneration_required : Bool
  halt : Bool
deriving DecidableEq, Repr

def mtj_stopping_callback {α : Type} (vars : StopVars)
    (pastVar : Option (List (List Nat))) (foundNewWorldInfo : Nat → Bool)
    (generated : List (Nat → Nat)) (n_generated : Nat)
    (excluded_world_info : List α) :
    Except PyError (StopVars × StopDecision α) :=
  let vars := { vars with generated_tkns := vars.generated_tkns + 1 }
  if excluded_world_info.length = generated.length then
    let regeneration_required := vars.lua_regeneration_required
    let halt := vars.abort || !vars.lua_generating ||
      decide (vars.genamt ≤ vars.generated_tkns)
    let vars := { vars with lua_regeneration_required := false }
    if vars.numseqs ≤ generated.length then
      if !vars.dynamicscan || halt then
        Except.ok (vars, ⟨excluded_world_info, regeneration_required, halt⟩)
      else
        match pastVar with
        | none => Except.error (PyError.nameError "past")
        | some _ =>
          Except.ok (vars,
            ⟨excluded_world_info,
              regeneration_required ||
                (List.range generated.length).any foundNewWorldInfo,
              halt⟩)
    else Except.error PyError.indexError
  else Except.error PyError.assertionError

/-- Concrete TPU parameters used for witnesses: core count 8 and sequence
length 20 as in the spec's soft-token padding test, with a small vocabulary. -/
def exampleMTJParams : MTJParams :=
  { d_model := 4096, d_embed := none, seq := 20, cores_per_replica := 8,
    n_vocab := 10, n_vocab_padding := 2 }

/-- Variable state for the stopping-hook bug input: dynamic world-info
scanning on, no abort, generation enabled, token budget not yet reached. -/
def exampleStopVars : StopVars :=
  { generated_tkns := 0, genamt := 10, abort := false, lua_generating := true,
    lua_regeneration_required := false, dynamicscan := true, numseqs := 1 }

/-! ## Theorems -/

/-- C8: the intercepted tensor-rebuild operation returns exactly what the
original rebuild operation returns, and the new value of the process-wide
`fp32_model` flag is the old value OR-ed with the probe condition (declared
dtype float32 and 2-or-more-dimensional shape) — so the probe alters neither
the tensor nor its dtype, sets the flag exactly on the probe condition, and
never clears a flag that was already set. -/
theorem new_rebuild_tensor_probe {α : Type}
    (old_rebuild_tensor : RebuildStorage → Int → List Nat → List Nat → α)
    (fp32_model : Bool) (storage : RebuildStorage) (storage_offset : Int)
    (shape stride : List Nat) :
    (new_rebuild_tensor old_rebuild_tensor fp32_model storage storage_offset
        shape stride).2 =
      old_rebuild_tensor storage storage_offset shape stride ∧
    (new_rebuild_tensor old_rebuild_tensor fp32_model storage storage_offset
        shape stride).1 =
      (fp32_model ||
        (decide (rebuildStorageDtype storage = TorchDType.float32) &&
          decide (2 ≤ shape.length))) := by
  refine ⟨rfl, ?_⟩
  by_cases h1 : rebuildStorageDtype storage = TorchDType.float32 <;>
    by_cases h2 : 2 ≤ shape.length <;>
      simp [new_rebuild_tensor, h1, h2]

/-- C7: the settings callback's repetition-penalty prepend is a dead store —
the returned `"sampler_order"` entry is always the unmodified configured
order, so for the 6-stage order `[0,1,2,3,4,5]` the code returns
`[0,1,2,3,4,5]` while the claim (and the source's own comment) require
`[6,0,1,2,3,4,5]`. -/
theorem mtj_settings_sampler_order_dead_store :
    (∀ cfg_sampler_order : List Nat,
      mtj_settings_sampler_order cfg_sampler_order = cfg_sampler_order) ∧
    mtj_settings_sampler_order [0, 1, 2, 3, 4, 5] = [0, 1, 2, 3, 4, 5] ∧
    intendedSamplerOrder [0, 1, 2, 3, 4, 5] = [6, 0, 1, 2, 3, 4, 5] ∧
    mtj_settings_sampler_order [0, 1, 2, 3, 4, 5] ≠
      intendedSamplerOrder [0, 1, 2, 3, 4, 5] :=
  ⟨fun _ => rfl, rfl, rfl, by decide⟩

/-- C9: saving a downloaded unsharded model attempts `pytorch_model.bin`
first and `model.safetensors` second; the outcome is fatal exactly when the
`model.safetensors` attempt fails, so an exception on the first name is
always swallowed and only a failure on the final fallback name propagates. -/
theorem saveUnshardedWeights_fallback (fetchMoveOk : String → Bool) :
    weightNameCandidates = ["pytorch_model.bin", "model.safetensors"] ∧
    saveUnshardedWeights fetchMoveOk =
      (if fetchMoveOk "model.safetensors" then
        Except.ok
          (if fetchMoveOk "pytorch_model.bin" then
            ["pytorch_model.bin", "model.safetensors"]
          else ["model.safetensors"])
      else Except.error "model.safetensors") := by
  refine ⟨rfl, ?_⟩
  have hW : WEIGHTS_NAME = "pytorch_model.bin" := rfl
  cases h1 : fetchMoveOk "pytorch_model.bin" <;>
    cases h2 : fetchMoveOk "model.safetensors" <;>
      simp [saveUnshardedWeights, trySaveWeights, weightNameCandidates, hW,
        h1, h2]

/-- C2: on the fp16-conversion path (downloaded model, `save_model` set,
`fp32_model` set, no disk-offload blocks) the source executes
`model = model.half()`, reading the unbound local `model`, and raises
`UnboundLocalError` instead of re-serializing; with disk blocks allocated or
the flag unset the files are copied verbatim as claimed.  Had the local been
bound, the half-and-reserialize action would have run. -/
theorem downloadedSaveStep_fp32_unbound_local :
    downloadedSaveStep modelLocalVar true true 0 =
      Except.error (PyError.unboundLocalError "model") ∧
    downloadedSaveStep modelLocalVar true true 3 =
      Except.ok WeightSaveAction.copyVerbatim ∧
    downloadedSaveStep modelLocalVar true false 0 =
      Except.ok WeightSaveAction.copyVerbatim ∧
    downloadedSaveStep (some ()) true true 0 =
      Except.ok WeightSaveAction.halfReserialize :=
  ⟨rfl, rfl, rfl, rfl⟩

/-- C1: in the split-placement arm with lazy loading off the source reads
the unbound local `model` (`self.breakmodel_device_config(model.config)`)
and raises `UnboundLocalError` instead of computing the placement plan; on
every other input the four-way branch agrees with the claim's priority
ladder, and in particular the ladder chooses all-VRAM when the VRAM-only and
split-placement flags are both set. -/
theorem finalDevicePlacement_priority :
    finalDevicePlacement modelLocalVar true false true false 0 =
      Except.error (PyError.unboundLocalError "model") ∧
    (∀ (hascuda usegpu breakmodel lazy_load : Bool) (disk_blocks : Nat),
      (lazy_load = true ∨ breakmodel = false ∨ usegpu = true ∨
        hascuda = false) →
      finalDevicePlacement modelLocalVar hascuda usegpu breakmodel lazy_load
          disk_blocks =
        Except.ok
          (claimedPlacementLadder hascuda usegpu breakmodel lazy_load
            disk_blocks)) ∧
    claimedPlacementLadder true true true true 0 = PlacementAction.accelAll := by
  refine ⟨rfl, ?_, rfl⟩
  intro hascuda usegpu breakmodel lazy_load disk_blocks h
  cases hascuda <;> cases usegpu <;> cases breakmodel <;> cases lazy_load <;>
    rcases Nat.eq_zero_or_pos disk_blocks with hd | hd <;>
      simp_all [finalDevicePlacement, claimedPlacementLadder, modelLocalVar]

/-- Witness for C1: with both flags set and lazy loading on, the code takes
the all-VRAM arm, as obtained from the theorem's priority-ladder part. -/
theorem finalDevicePlacement_priority_witness :
    finalDevicePlacement modelLocalVar true true true true 0 =
      Except.ok PlacementAction.accelAll := by
  have h := finalDevicePlacement_priority.2.1 true true true true 0 (Or.inl rfl)
  simpa [claimedPlacementLadder] using h

/-- C4: whenever the stopping hook returns, the returned exclusion set is
the one passed in and the halt flag is set exactly when the abort flag is
set, generation is externally disabled, or the incremented token count has
reached `genamt`; but on an input where none of these hold and dynamic
world-info scanning is on, the hook does not complete normally — it raises
`NameError` reading the never-assigned module global `past`. -/
theorem mtj_stopping_callback_halt :
    (∀ (vars : StopVars) (pastVar : Option (List (List Nat)))
        (foundNewWorldInfo : Nat → Bool) (generated : List (Nat → Nat))
        (n_generated : Nat) (excluded_world_info : List Nat)
        (vars' : StopVars) (d : StopDecision Nat),
      mtj_stopping_callback vars pastVar foundNewWorldInfo generated
          n_generated excluded_world_info = Except.ok (vars', d) →
      d.excluded_world_info = excluded_world_info ∧
      d.halt = (vars.abort || !vars.lua_generating ||
        decide (vars.genamt ≤ vars.generated_tkns + 1))) ∧
    mtj_stopping_callback exampleStopVars pastGlobal (fun _ => false)
        [fun _ => 0] 1 ([0] : List Nat) =
      Except.error (PyError.nameError "past") := by
  constructor
  · intro vars pastVar foundNewWorldInfo generated n_generated
      excluded_world_info vars' d h
    unfold mtj_stopping_callback at h
    simp only [] at h
    split at h
    · split at h
      · split at h
        · injection h with h'
          injection h' with h1 h2
          subst h2
          exact ⟨rfl, rfl⟩
        · cases pastVar with
          | none => exact Except.noConfusion h
          | some _ =>
            injection h with h'
            injection h' with h1 h2
            subst h2
            exact ⟨rfl, rfl⟩
      · exact Except.noConfusion h
    · exact Except.noConfusion h
  · rfl

/-- Witness for C4: a call with dynamic scanning off returns normally, and
the theorem yields the returned exclusion set and the halt flag value for
it. -/
theorem mtj_stopping_callback_halt_witness :
    (StopDecision.mk ([0] : List Nat) false false).excluded_world_info =
      [0] ∧
    (StopDecision.mk ([0] : List Nat) false false).halt =
      (false || !true || decide ((10 : Nat) ≤ 0 + 1)) :=
  mtj_stopping_callback_halt.1
    { generated_tkns := 0, genamt := 10, abort := false,
      lua_generating := true, lua_regeneration_required := false,
      dynamicscan := false, numseqs := 1 }
    pastGlobal (fun _ => false) [fun _ => 0] 1 [0]
    { generated_tkns := 1, genamt := 10, abort := false,
      lua_generating := true, lua_regeneration_required := false,
      dynamicscan := false, numseqs := 1 }
    (StopDecision.mk [0] false false) rfl

/-- C5: the score-rewriting hook fails the call with an assertion error
exactly when the externally rewritten distribution's shape differs from the
input's, and any successfully returned array has the input's shape and its
dtype (the reconstruction passes `dtype=scores.dtype`).  The failure is the
hook's result for the one call only; no state is altered. -/
theorem mtj_warper_callback_shape {α : Type}
    (genmod : List (List α) → List (List α)) (scores : NpArray2 α) :
    (∀ out, mtj_warper_callback genmod scores = Except.ok out →
      shapeProfile out.rows = shapeProfile scores.rows ∧
      out.dtype = scores.dtype) ∧
    (mtj_warper_callback genmod scores = Except.error PyError.assertionError ↔
      shapeProfile (genmod scores.rows) ≠ shapeProfile scores.rows) := by
  constructor
  · intro out h
    unfold mtj_warper_callback at h
    split at h
    · injection h with h'
      subst h'
      exact ⟨by assumption, rfl⟩
    · exact Except.noConfusion h
  · unfold mtj_warper_callback
    split
    · rename_i heq
      simp [heq]
    · rename_i hne
      simp [hne]

/-- Witness for C5: a rewrite that reverses each row passes the shape check,
and the theorem yields that the output's shape profile and dtype match the
input's. -/
theorem mtj_warper_callback_shape_witness :
    shapeProfile ([[2, 1]] : List (List Nat)) = shapeProfile [[1, 2]] ∧
    NpDType.float32 = NpDType.float32 :=
  (mtj_warper_callback_shape (fun rows => rows.map List.reverse)
    ⟨NpDType.float32, [[1, 2]]⟩).1 ⟨NpDType.float32, [[2, 1]]⟩ rfl

/-- Counterexample for C3: for the vocabulary
`{"<pad>": 0, "hello": 1, "</s>": 2}`, a model type off the exclusion list,
and spaces-as-newline mode off (`newlinemode = "n"`), the derived
suppression list is `[[0], [2]]` — it DOES contain token id 2, contradicting
the claim that `</s>` is excluded when the mode is off (the source's guard
`newlinemode != "s" or str(k) != "</s>"` keeps `</s>` in that case). -/
theorem badwords_eos_counterexample :
    badwordsUpdate true "opt" [] exampleVocab "n" = [[0], [2]] ∧
    [2] ∈ badwordsUpdate true "opt" [] exampleVocab "n" := by
  constructor <;> decide

/-- C3 (amended): when the suppression list is still the default and the
model type is not `gpt2`/`gpt_neo`/`gptj`, the derivation produces the
singleton groups `[id]` for exactly the vocabulary tokens containing one of
`<`, `>`, `[`, `]` — with the token literal `</s>` excluded precisely when
the spaces-as-newline mode IS active (`newlinemode = "s"`); so for the
example vocabulary with the mode off the set contains both id 0 and id 2. -/
theorem badwords_derivation_amended
    (model_type : String) (vocab : List (String × Nat)) (newlinemode : String)
    (current : List (List Nat)) (k : String) (v : Nat)
    (hmt : model_type ∉ ["gpt2", "gpt_neo", "gptj"])
    (hmem : (k, v) ∈ vocab)
    (hvuniq : ∀ kv ∈ vocab, kv.2 = v → kv = (k, v)) :
    [v] ∈ badwordsUpdate true model_type current vocab newlinemode ↔
      (hasBracketChar k = true ∧ (newlinemode = "s" → k ≠ "</s>")) := by
  unfold badwordsUpdate
  rw [if_pos ⟨rfl, hmt⟩]
  unfold deriveBadwordsIds
  simp only [List.mem_map, List.mem_filter]
  constructor
  · rintro ⟨kv, ⟨hkv, hp⟩, hv2⟩
    have hv2' : kv.2 = v := by
      simpa using congrArg (fun l => l.headI) hv2
    have hkveq : kv = (k, v) := hvuniq kv hkv hv2'
    subst hkveq
    simp only [Bool.and_eq_true, Bool.or_eq_true, decide_eq_true_eq] at hp
    refine ⟨hp.1, ?_⟩
    intro hs
    rcases hp.2 with hns | hk
    · exact absurd hs hns
    · exact hk
  · rintro ⟨hbr, hguard⟩
    refine ⟨(k, v), ⟨hmem, ?_⟩, rfl⟩
    simp only [Bool.and_eq_true, Bool.or_eq_true, decide_eq_true_eq]
    refine ⟨hbr, ?_⟩
    by_cases hs : newlinemode = "s"
    · exact Or.inr (hguard hs)
    · exact Or.inl hs

/-- Witness for C3 (amended): instantiating the theorem at the `</s>` entry
of the example vocabulary with the mode off shows `[2]` is in the derived
suppression list. -/
theorem badwords_derivation_amended_witness :
    [2] ∈ badwordsUpdate true "opt" [] exampleVocab "n" :=
  (badwords_derivation_amended "opt" exampleVocab "n" [] "</s>" 2
    (by decide) (by decide) (by decide)).mpr
    ⟨by decide, fun hs => absurd hs (by decide)⟩

/-- Python's `%` on integers is floor-mod, i.e. `Int.fmod`; on the
constructor representation the nonneg-by-negative case computes to a
`subNatNat`. -/
theorem fmod_ofNat_negSucc (m k : Nat) :
    Int.fmod (Int.ofNat (m + 1)) (Int.negSucc k) =
      Int.subNatNat (m % (k + 1)) k := rfl

/-- For a nonnegative dividend and a negative divisor `-c`, Python's mod
lies in the interval `(-c, 0]`. -/
theorem fmod_neg_divisor_bounds (s c : Nat) (hc : 0 < c) :
    -(c : Int) < Int.fmod (s : Int) (-(c : Int)) ∧
      Int.fmod (s : Int) (-(c : Int)) ≤ 0 := by
  obtain ⟨k, rfl⟩ : ∃ k, c = k + 1 := ⟨c - 1, by omega⟩
  cases s with
  | zero =>
    rw [show ((0 : Nat) : Int) = 0 from rfl, Int.zero_fmod]
    constructor <;> omega
  | succ m =>
    have hx : Int.fmod ((m + 1 : Nat) : Int) (-((k + 1 : Nat) : Int)) =
        ((m % (k + 1) : Nat) : Int) - ((k : Nat) : Int) := by
      rw [show ((m + 1 : Nat) : Int) = Int.ofNat (m + 1) from rfl,
        show -((k + 1 : Nat) : Int) = Int.negSucc k from rfl,
        fmod_ofNat_negSucc, Int.subNatNat_eq_coe]
    rw [hx]
    have h1 : m % (k + 1) < k + 1 := Nat.mod_lt _ (by omega)
    constructor <;> omega

/-- C6: with no soft prompt configured, the padded placeholder's first
dimension is the least multiple of `cores_per_replica` that is at least
`seq`: it is divisible by the core count, at least `seq`, and no larger than
any other such multiple; the `np.pad` amount is nonnegative and the
`reshape(cores_per_replica, -1, width)` middle dimension recovers it
exactly. -/
theorem get_soft_tokens_padding (p : MTJParams)
    (hc : 0 < p.cores_per_replica) (hs : 0 < p.seq) :
    ((p.cores_per_replica : Int) ∣ paddedFirstDim p) ∧
    (p.seq : Int) ≤ paddedFirstDim p ∧
    (∀ m : Int, (p.cores_per_replica : Int) ∣ m → (p.seq : Int) ≤ m →
      paddedFirstDim p ≤ m) ∧
    0 ≤ paddingAmount p ∧
    (p.cores_per_replica : Int) * (reshapedShape p).2.1 = paddedFirstDim p := by
  have hcpos : (0 : Int) < (p.cores_per_replica : Int) := by exact_mod_cast hc
  have hspos : (0 : Int) < (p.seq : Int) := by exact_mod_cast hs
  have hr := fmod_neg_divisor_bounds p.seq p.cores_per_replica hc
  set c : Int := (p.cores_per_replica : Int) with hcdef
  set s : Int := (p.seq : Int) with hsdef
  set r : Int := Int.fmod s (-c) with hrdef
  have hpd : paddedFirstDim p = s - r := by
    simp only [paddedFirstDim, paddingAmount, placeholderRows, hrdef, hcdef,
      hsdef]
    push_cast
    ring
  have hq := Int.fmod_add_fdiv s (-c)
  set q : Int := Int.fdiv s (-c) with hqdef
  have hdvd : c ∣ paddedFirstDim p := by
    refine ⟨-q, ?_⟩
    rw [hpd]
    linarith [hq]
  have hge : s ≤ paddedFirstDim p := by rw [hpd]; linarith [hr.2]
  have hlt : paddedFirstDim p < s + c := by rw [hpd]; linarith [hr.1]
  refine ⟨hdvd, hge, ?_, ?_, ?_⟩
  · intro m hm hsm
    obtain ⟨t, rfl⟩ := hm
    obtain ⟨u, hu⟩ := hdvd
    rw [hu]
    have hub : c * u < c * (t + 1) := by
      rw [← hu]
      calc paddedFirstDim p < s + c := hlt
        _ ≤ c * t + c := by linarith
        _ = c * (t + 1) := by ring
    have : u < t + 1 := lt_of_mul_lt_mul_left hub (le_of_lt hcpos)
    have : u ≤ t := by omega
    exact mul_le_mul_of_nonneg_left this (le_of_lt hcpos)
  · have : (placeholderRows : Int) + paddingAmount p = s - r := hpd
    simp only [placeholderRows] at this
    push_cast at this
    linarith [hge, hspos]
  · show c * (paddedFirstDim p / c) = paddedFirstDim p
    exact Int.mul_ediv_cancel' hdvd

/-- Witness for C6: for core count 8 and sequence length 20 the padded first
dimension is 24 — a multiple of 8 that is at least 20 — as obtained from the
theorem. -/
theorem get_soft_tokens_padding_witness :
    ((8 : Int) ∣ paddedFirstDim exampleMTJParams) ∧
    (20 : Int) ≤ paddedFirstDim exampleMTJParams ∧
    paddedFirstDim exampleMTJParams = 24 := by
  have h := get_soft_tokens_padding exampleMTJParams (by decide) (by decide)
  exact ⟨h.1, h.2.1, by decide⟩

/-- C10: under the no-wraparound bound on uint32 arithmetic, the soft-token
id array is exactly the `sp_length` consecutive integers starting at
`n_vocab + n_vocab_padding`, every id is at least the padded vocabulary
size, and no id collides with a real vocabulary token id (those below
`n_vocab`). -/
theorem get_soft_tokens_ids_range (p : MTJParams) (sp_length : Nat)
    (hfit : softTokensStart p + sp_length ≤ UINT32_MOD) :
    get_soft_tokens_ids p sp_length =
      (List.range sp_length).map (fun i => softTokensStart p + i) ∧
    (get_soft_tokens_ids p sp_length).length = sp_length ∧
    (∀ t ∈ get_soft_tokens_ids p sp_length, softTokensStart p ≤ t) ∧
    (∀ t, t < p.n_vocab → t ∉ get_soft_tokens_ids p sp_length) := by
  have hmap : get_soft_tokens_ids p sp_length =
      (List.range sp_length).map (fun i => softTokensStart p + i) := by
    unfold get_soft_tokens_ids npArangeUint32
    apply List.map_congr_left
    intro i hi
    have hilt : i < sp_length := List.mem_range.mp hi
    exact Nat.mod_eq_of_lt (by omega)
  refine ⟨hmap, by rw [hmap]; simp, ?_, ?_⟩
  · intro t ht
    rw [hmap] at ht
    simp only [List.mem_map, List.mem_range] at ht
    obtain ⟨i, _, rfl⟩ := ht
    omega
  · intro t htv hmem
    rw [hmap] at hmem
    simp only [List.mem_map, List.mem_range] at hmem
    obtain ⟨i, _, hEq⟩ := hmem
    have : p.n_vocab + p.n_vocab_padding ≤ t := by
      rw [← hEq]
      simp only [softTokensStart]
      omega
    omega

/-- Witness for C10: for `n_vocab = 10`, `n_vocab_padding = 2` and
`sp_length = 3` the ids are `[12, 13, 14]`, as obtained from the theorem. -/
theorem get_soft_tokens_ids_range_witness :
    get_soft_tokens_ids exampleMTJParams 3 = [12, 13, 14] := by
  have h := (get_soft_tokens_ids_range exampleMTJParams 3 (by decide)).1
  rw [h]
  decide

end KoboldLoad
